import Mathlib

/-!
Verification of the NL2SQL agent pipeline (shallow embedding).

The repository is a Python multi-agent NL-to-SQL system.  This file embeds
the pure decision logic of its components as executable Lean definitions:

* `SQLAgent.cleanSqlResponse`  — `sql_agent.py::SQLAgent._clean_sql_response`
* `SQLAgent.validate_query`    — `sql_agent.py::SQLAgent.validate_query`
* `SQLAgent.processFn`         — `sql_agent.py::SQLAgent.process`
* `SummaryAgent.*`             — `summary_agent.py::SummaryAgent`
* `VisualizationAgent.*`       — `src/agents/visualization_agent.py`
* `run_query`                  — `src/core/db.py::run_query`
* `chatProcess`                — `chat_agent.py::ChatAgent.process`

External collaborators (the LLM transport, sqlite, plotly) are modelled as
oracles (functions supplied as parameters); Python strings are modelled as
Lean `String`/`List Char` with ASCII-faithful upper/lower casing, and Python
truthiness of strings/options is modelled explicitly.
-/

namespace NL2SQL

/-! ## Python string primitives -/

/-- Python whitespace for `str.strip` / regex `\s` (ASCII range). -/
def pyIsSpace (c : Char) : Bool :=
  c = ' ' || c = '\t' || c = '\n' || c = '\r' || c = '\x0b' || c = '\x0c'

/-- `str.strip()` on a character list: drop leading and trailing whitespace. -/
def pyStrip (l : List Char) : List Char :=
  ((l.dropWhile pyIsSpace).reverse.dropWhile pyIsSpace).reverse

/-- `str.upper()` (ASCII model). -/
def pyUpper (l : List Char) : List Char := l.map Char.toUpper

/-- `str.lower()` (ASCII model). -/
def pyLower (l : List Char) : List Char := l.map Char.toLower

/-- `needle in hay` for Python strings: substring containment. -/
def containsSub (needle : List Char) : List Char → Bool
  | [] => needle.isEmpty
  | c :: cs => needle.isPrefixOf (c :: cs) || containsSub needle cs

/-- `str.rstrip(';')`: drop trailing semicolons. -/
def rstripSemi (l : List Char) : List Char :=
  (l.reverse.dropWhile (fun c => c = ';')).reverse

/-- Python truthiness of an `Optional[str]`: `None` and `""` are falsy. -/
def pyStrTruthy : Option String → Bool
  | none => false
  | some s => decide (s ≠ "")

/-! ## SQL agent: `_clean_sql_response` (sql_agent.py lines 135-167)

The two `re.sub` calls and the `re.search` are embedded as direct scans:

* `re.sub(r'```sql\s*', '', sql, flags=re.IGNORECASE)` removes every
  occurrence of three backticks followed by `sql` (case-insensitive) and a
  greedy run of whitespace, scanning left to right and resuming after each
  match, exactly as `re.sub` does;
* `re.sub(r'```\s*$', '', sql)` removes the leftmost occurrence of three
  backticks that is followed only by whitespace up to the end of the string
  (without `re.MULTILINE`, `$` only matches at the end or before a final
  newline, so a match must consume the whole tail);
* `re.search(r'(SELECT\s+.*)', sql, re.IGNORECASE | re.DOTALL)` finds the
  leftmost case-insensitive `SELECT` followed by at least one whitespace
  character; the greedy `.*` under `DOTALL` extends the capture to the end
  of the string.
-/

/-- The backtick character (U+0060). -/
def backtick : Char := '\x60'

/-- Do the first six characters spell ```` ```sql ```` (case-insensitive `sql`)? -/
def fenceSqlHeader : List Char → Bool
  | a :: b :: c :: d :: e :: f :: _ =>
    a = backtick && b = backtick && c = backtick &&
    d.toLower = 's' && e.toLower = 'q' && f.toLower = 'l'
  | _ => false

/-- Try to match ```` ```sql\s* ```` at the head of the list (case-insensitive
`sql`); on success return the remainder after the match (the greedy `\s*`
consumes the whitespace run). -/
def matchFenceSql (l : List Char) : Option (List Char) :=
  if fenceSqlHeader l then some ((l.drop 6).dropWhile pyIsSpace) else none

/-- Fuelled scan for `re.sub(r'```sql\s*', '', ·)` (fuel bounds the number of
scan steps; `subFenceSql` supplies the list length, which always suffices). -/
def subFenceSqlAux : Nat → List Char → List Char
  | 0, l => l
  | _ + 1, [] => []
  | fuel + 1, c :: cs =>
    match matchFenceSql (c :: cs) with
    | some rest => subFenceSqlAux fuel rest
    | none => c :: subFenceSqlAux fuel cs

/-- `re.sub(r'```sql\s*', '', sql, flags=re.IGNORECASE)`. -/
def subFenceSql (l : List Char) : List Char := subFenceSqlAux l.length l

/-- Does ```` ``` ```` start here, followed only by whitespace to the end? -/
def fenceAtEnd : List Char → Bool
  | a :: b :: c :: rest =>
    a = backtick && b = backtick && c = backtick && rest.all pyIsSpace
  | _ => false

/-- `re.sub(r'```\s*$', '', sql)`: cut at the leftmost closing fence whose
tail is all whitespace. -/
def subTrailingFence : List Char → List Char
  | [] => []
  | c :: cs => if fenceAtEnd (c :: cs) then [] else c :: subTrailingFence cs

/-- Is `SELECT` (case-insensitive) followed by a whitespace character at the
head of the list?  This is the start of a `(SELECT\s+.*)` match. -/
def selectTokenHere : List Char → Bool
  | s :: e :: l :: e2 :: c :: t :: w :: _ =>
    s.toLower = 's' && e.toLower = 'e' && l.toLower = 'l' &&
    e2.toLower = 'e' && c.toLower = 'c' && t.toLower = 't' && pyIsSpace w
  | _ => false

/-- Leftmost suffix at which `(SELECT\s+.*)` matches, if any. -/
def findSelect : List Char → Option (List Char)
  | [] => none
  | c :: cs => if selectTokenHere (c :: cs) then some (c :: cs) else findSelect cs

/-- `re.search(r'(SELECT\s+.*)', sql, re.IGNORECASE | re.DOTALL)` followed by
`sql = match.group(1)` when it matches, else `sql` unchanged. -/
def selectCapture (l : List Char) : List Char := (findSelect l).getD l

/-- The body of `_clean_sql_response` before the final terminator append. -/
def cleanBody (l : List Char) : List Char :=
  pyStrip (rstripSemi (selectCapture (pyStrip (subTrailingFence (subFenceSql (pyStrip l))))))

/-- `SQLAgent._clean_sql_response` (sql_agent.py lines 135-167). -/
def SQLAgent.cleanSqlResponse (response : String) : String :=
  ⟨cleanBody response.data ++ [';']⟩

/-! ## SQL agent: `validate_query` (sql_agent.py lines 169-196) -/

/-- The denylist, in source order. -/
def dangerous_keywords : List String :=
  ["DROP", "DELETE", "INSERT", "UPDATE", "ALTER", "CREATE", "TRUNCATE", "EXEC"]

/-- The `for keyword in dangerous_keywords: if keyword in sql_upper: return
False` loop (early return on the first keyword found). -/
def checkKeywords : List String → List Char → Bool
  | [], _ => true
  | kw :: rest, u => if containsSub kw.data u then false else checkKeywords rest u

/-- `SQLAgent.validate_query`: uppercase, strip, require a `SELECT` start,
then scan the denylist by substring containment. -/
def SQLAgent.validate_query (sql : String) : Bool :=
  let sql_upper := pyStrip (pyUpper sql.data)
  if "SELECT".data.isPrefixOf sql_upper then checkKeywords dangerous_keywords sql_upper
  else false

/-! ## Spec-side predicates for claim C1 -/

/-- A regex `\w` word character (ASCII). -/
def isWordChar (c : Char) : Bool := c.isAlpha || c.isDigit || c = '_'

/-- Scan for a whole-word occurrence of `kw`: an occurrence whose neighbour
characters (when present) are not word characters.  `prev` is the character
immediately before the current scan position. -/
def wholeWordFrom (kw : List Char) (prev : Option Char) : List Char → Bool
  | [] => false
  | c :: rest =>
    ((match prev with | none => true | some p => !(isWordChar p)) &&
     kw.isPrefixOf (c :: rest) &&
     (match (c :: rest).drop kw.length with
      | [] => true
      | d :: _ => !(isWordChar d))) ||
    wholeWordFrom kw (some c) rest

/-- Whole-word containment of `kw` in `l`. -/
def containsWholeWord (kw : List Char) (l : List Char) : Bool :=
  wholeWordFrom kw none l

/-- Claim C1's predicate, from the spec's words: after normalising (uppercase,
trim), the text must start with `SELECT` and contain none of the denylisted
keywords *as whole words*. -/
def is_safe_claim (sql : String) : Bool :=
  let u := pyStrip (pyUpper sql.data)
  "SELECT".data.isPrefixOf u &&
    dangerous_keywords.all (fun kw => !(containsWholeWord kw.data u))

/-- The amended predicate: identical except that the denylist check is plain
substring containment, as the code implements it. -/
def is_safe_substring (sql : String) : Bool :=
  let u := pyStrip (pyUpper sql.data)
  "SELECT".data.isPrefixOf u &&
    dangerous_keywords.all (fun kw => !(containsSub kw.data u))

/-! ## Statement counting (for claim C3) -/

/-- Split a character list on `';'` (like `str.split(';')`). -/
def splitSemi : List Char → List (List Char)
  | [] => [[]]
  | c :: cs =>
    if c = ';' then [] :: splitSemi cs
    else
      match splitSemi cs with
      | [] => [[c]]
      | seg :: rest => (c :: seg) :: rest

/-- Number of SQL statements in a string, counted as the `';'`-separated
segments that contain a non-whitespace character. -/
def sqlStatementCount (s : String) : Nat :=
  ((splitSemi s.data).filter (fun seg => seg.any (fun c => !(pyIsSpace c)))).length

/-- Does the string end with exactly one semicolon (a final `';'` not
preceded by another `';'`)? -/
def endsWithOneSemi (s : String) : Bool :=
  match s.data.reverse with
  | c :: rest =>
    c = ';' && (match rest with | d :: _ => decide (d ≠ ';') | [] => true)
  | [] => false

/-! ## Data model

SQLite row values (`NULL`, `INTEGER`, `REAL`, `TEXT`).  A `REAL` is carried
as its display text only: no claim computes with float values, they are only
classified (numeric vs categorical) and echoed into formatted output. -/

inductive Val where
  | vInt : Int → Val
  | vReal : String → Val
  | vText : String → Val
  | vNull : Val
deriving DecidableEq, Repr

/-- A row tuple. -/
abbrev Row := List Val

/-- A result-set row list. -/
abbrev Rows := List Row

/-- Is the value numeric (an `int` or `float` in pandas terms)? -/
def Val.isNum : Val → Bool
  | vInt _ => true
  | vReal _ => true
  | _ => false

/-- Numeric or `None` (pandas coerces `None` among numerics to `NaN`). -/
def Val.isNumOrNull : Val → Bool
  | vNull => true
  | v => v.isNum

/-- Python `repr`/`str` of a value as it appears inside a printed dict
(simple ASCII strings assumed). -/
def Val.pyRepr : Val → String
  | vInt n => toString n
  | vReal r => r
  | vText s => "\x27" ++ s ++ "\x27"
  | vNull => "None"

/-- Outcome of one language-model call (`Agent.call_llm`): a reply string,
`None` (transport failure), or a raised exception. -/
inductive LlmOutcome where
  | ok : String → LlmOutcome
  | fail : LlmOutcome
  | exc : LlmOutcome
deriving DecidableEq, Repr

/-! ## Query executor: `run_query` (src/core/db.py lines 99-120) -/

/-- Outcome of `cursor.execute(sql)` as provided by the sqlite collaborator:
either it raises, or it completes leaving a cursor description (column
names, absent for statements that produce no rows) and fetchable rows. -/
inductive ExecOutcome where
  | raises : String → ExecOutcome
  | done : Option (List String) → Rows → ExecOutcome
deriving DecidableEq, Repr

deriving instance DecidableEq for Except

/-- What `run_query` did: its returned/raised outcome plus whether the
connection was committed and closed. -/
structure RunResult where
  result : Except String (List String × Rows)
  committed : Bool
  closed : Bool
deriving DecidableEq, Repr

/-- `sql.strip().lower().startswith("select")`. -/
def startsWithSelectLower (sql : String) : Bool :=
  "select".data.isPrefixOf (pyLower (pyStrip sql.data))

/-- `run_query` (src/core/db.py): execute, then fetch all rows and column
names for a SELECT, otherwise commit and return an empty result; on an
execution fault close the connection and re-raise. -/
def run_query (db : String → ExecOutcome) (sql : String) : RunResult :=
  match db sql with
  | .raises msg => ⟨.error msg, false, true⟩
  | .done descr rows =>
    if startsWithSelectLower sql then
      ⟨.ok (descr.getD [], rows), false, true⟩
    else
      ⟨.ok ([], []), true, true⟩

/-! ## Summary agent (summary_agent.py) -/

/-- The fixed "no results" message of `SummaryAgent.process`. -/
def msgNoResults : String :=
  "No results were found for this query. The database might not contain matching records."

/-- `SummaryAgent._generate_fallback_summary`: a templated summary keyed on
the row count (the `sql_query` parameter is accepted but unused, as in the
source). -/
def fallbackSummary (_sql_query : String) (row_count : Nat) : String :=
  if row_count = 0 then
    "No results found for this query."
  else if row_count = 1 then
    "The query returned 1 result. The data shows the information matching your request."
  else
    "The query successfully returned " ++ toString row_count ++
      " results. You can see the detailed data in the Results tab above."

/-- Insert a key into a Python dict under construction: an existing key is
updated in place (keeping first-insertion order), a new key is appended. -/
def dictInsert (k : String) (v : Val) : List (String × Val) → List (String × Val)
  | [] => [(k, v)]
  | (k0, v0) :: rest => if k0 = k then (k0, v) :: rest else (k0, v0) :: dictInsert k v rest

/-- `dict(zip(columns, row))` as an insertion-ordered association list. -/
def dictOfZip (ps : List (String × Val)) : List (String × Val) :=
  ps.foldl (fun acc kv => dictInsert kv.1 kv.2 acc) []

/-- Python `str` of `dict(zip(columns, row))` (simple ASCII keys assumed). -/
def pyDictRepr (ps : List (String × Val)) : String :=
  "\x7b" ++
    String.intercalate ", "
      ((dictOfZip ps).map (fun kv => "\x27" ++ kv.1 ++ "\x27: " ++ kv.2.pyRepr)) ++
    "\x7d"

/-- `SummaryAgent._format_results` with its default `max_rows = 20`. -/
def formatResults (columns : List String) (rows : Rows) : String :=
  let max_rows := 20
  let display_rows := rows.take max_rows
  let lines :=
    ["Columns: " ++ String.intercalate ", " columns,
     "Total rows: " ++ toString rows.length,
     "\nData:"] ++
    display_rows.enum.map
      (fun ir => "  Row " ++ toString (ir.1 + 1) ++ ": " ++ pyDictRepr (columns.zip ir.2)) ++
    (if rows.length > max_rows then
       ["  ... and " ++ toString (rows.length - max_rows) ++ " more rows"]
     else [])
  String.intercalate "\n" lines

/-- The prompt built by `SummaryAgent._generate_summary` (the optional
user-question part is included only when `user_query` is truthy). -/
def summaryPrompt (sql_query results_text : String) (user_query : Option String) : String :=
  let prompt_parts :=
    (if pyStrTruthy user_query then
       ["User\x27s Question: " ++ user_query.getD ""]
     else []) ++
    ["SQL Query:\n" ++ sql_query,
     "\nQuery Results:\n" ++ results_text,
     "\nProvide a clear, insightful summary of these results in 2-4 sentences. " ++
       "Focus on key findings and patterns."]
  String.intercalate "\n\n" prompt_parts

/-- `SummaryAgent._generate_summary`: call the model with the built prompt;
a truthy reply is returned verbatim, a falsy reply (`None` or `""`), and a
raised exception, fall back to the templated summary. -/
def generateSummary (llm : String → LlmOutcome) (sql_query results_text : String)
    (user_query : Option String) (row_count : Nat) : String :=
  let prompt := summaryPrompt sql_query results_text user_query
  match llm prompt with
  | .ok s => if s ≠ "" then s else fallbackSummary sql_query row_count
  | .fail => fallbackSummary sql_query row_count
  | .exc => fallbackSummary sql_query row_count

/-- `SummaryAgent.process`: empty results short-circuit to the fixed message;
otherwise format the rows and generate (or fall back to) a summary. -/
def SummaryAgent.processFn (llm : String → LlmOutcome) (sql_query : String)
    (columns : List String) (rows : Rows) (user_query : Option String) : Option String :=
  if rows.isEmpty then some msgNoResults
  else
    let results_text := formatResults columns rows
    some (generateSummary llm sql_query results_text user_query rows.length)

/-! ## Visualization agent (src/agents/visualization_agent.py)

`pd.DataFrame(rows, columns=columns)` column dtypes are modelled value-wise:
a column is numeric (`int64`/`float64`) when all its values are numeric or
`None` with at least one numeric value; otherwise it is `object`, i.e.
categorical.  `select_dtypes(...).columns.tolist()` yields the *labels* of
the numeric positions (duplicates preserved), and the source then computes
`categorical_cols = [c for c in columns if c not in numeric_cols]` by name
membership — so a duplicated label that is numeric at one position excludes
all its occurrences from the categorical list. -/

/-- Values of column `i` across the rows. -/
def colValues (rows : Rows) (i : Nat) : List Val :=
  rows.map (fun r => r.getD i Val.vNull)

/-- pandas dtype of one column: is it numeric? -/
def numericDtype (col : List Val) : Bool :=
  col.all Val.isNumOrNull && col.any Val.isNum

/-- Column classification, position-wise: `true` = numeric. -/
def columnKinds (columns : List String) (rows : Rows) : List Bool :=
  (List.range columns.length).map (fun i => numericDtype (colValues rows i))

/-- `numeric_cols = df.select_dtypes(include=[...]).columns.tolist()`: the
labels of the numeric positions, in order, duplicates preserved. -/
def numericColNames (columns : List String) (rows : Rows) : List String :=
  ((columns.zip (columnKinds columns rows)).filter (fun p => p.2)).map (fun p => p.1)

/-- `categorical_cols = [c for c in columns if c not in numeric_cols]`: name
membership against the numeric-label list, as in the source. -/
def categoricalColNames (columns : List String) (rows : Rows) : List String :=
  columns.filter (fun c => !(numericColNames columns rows).contains c)

/-- The aggregation keywords checked against the upper-cased SQL text. -/
def aggKeywords : List String := ["COUNT", "SUM", "AVG", "GROUP BY", "MAX", "MIN"]

/-- `sql_query and any(kw in sql_query.upper() for kw in [...])` (a falsy
`sql_query` — `None` or `""` — short-circuits to false). -/
def isAggregation (sql_query : Option String) : Bool :=
  pyStrTruthy sql_query &&
    aggKeywords.any (fun kw => containsSub kw.data (pyUpper (sql_query.getD "").data))

/-- `VisualizationAgent._detect_chart_type` (visualization_agent.py lines
92-158): the ordered first-match-wins cascade. -/
def detectChartType (columns : List String) (rows : Rows) (sql_query : Option String) :
    String :=
  let num_rows := rows.length
  let num_cols := columns.length
  if num_rows < 1 || num_cols < 1 then "none"
  else if num_rows = 1 && num_cols > 2 then "none"
  else
    let numeric_cols := numericColNames columns rows
    let categorical_cols := categoricalColNames columns rows
    let is_aggregation := isAggregation sql_query
    if num_cols = 2 && categorical_cols.length = 1 && numeric_cols.length = 1 then
      if num_rows ≤ 7 then "pie" else "bar"
    else if num_cols = 2 && numeric_cols.length = 2 then "scatter"
    else if categorical_cols.length ≥ 1 && numeric_cols.length ≥ 1 then "bar"
    else if is_aggregation then "bar"
    else if num_rows > 10 && numeric_cols.length ≥ 1 then "line"
    else if categorical_cols.length ≥ 1 then "bar"
    else "none"

/-- An opaque plotly figure. -/
abbrev Fig := Unit

/-- `VisualizationAgent._generate_chart`: select the x/y columns and call the
plotly collaborator (the oracle receives the chart kind and the chosen x/y
column names and may raise).  An empty column list raises an `IndexError`
at `columns[0]`, mirrored by the explicit error branch. -/
def generateChart (plotly : String → String → String → Except String Fig)
    (columns : List String) (rows : Rows) (chart_type : String) : Except String Fig :=
  let numeric_cols := numericColNames columns rows
  let categorical_cols := categoricalColNames columns rows
  if categorical_cols.isEmpty && columns.isEmpty then
    .error "list index out of range"
  else
    let x_col := match categorical_cols with
      | x :: _ => x
      | [] => columns.headD ""
    let y_col := match numeric_cols with
      | y :: _ => y
      | [] => columns.getLastD ""
    if chart_type = "scatter" then
      match numeric_cols with
      | a :: b :: _ => plotly "scatter" a b
      | _ => plotly "scatter" "index" y_col
    else if chart_type = "line" then
      plotly "line" (if x_col = "" then "index" else x_col) y_col
    else if chart_type = "bar" || chart_type = "pie" then
      plotly chart_type x_col y_col
    else
      plotly "bar" x_col y_col

/-- `VisualizationAgent._get_chart_recommendation`. -/
def chartRecommendation (chart_type : String) (num_rows : Nat) : String :=
  if chart_type = "bar" then
    "Bar chart showing comparison across " ++ toString num_rows ++ " categories."
  else if chart_type = "pie" then
    "Pie chart showing distribution of " ++ toString num_rows ++ " segments."
  else if chart_type = "line" then
    "Line chart showing trend across " ++ toString num_rows ++ " data points."
  else if chart_type = "scatter" then
    "Scatter plot showing relationship between variables."
  else if chart_type = "none" then
    "Data is best viewed as a table."
  else
    "Visualization generated."

/-- The visualization descriptor returned by `VisualizationAgent.process`:
chart-type tag, optional figure, rationale. -/
structure VizResult where
  chart_type : String
  figure : Option Fig
  recommendation : String
deriving DecidableEq, Repr

/-- `VisualizationAgent.process` (lines 37-90): no descriptor for an empty
result set; a figure-less `"none"` descriptor when detection declines; a
constructed figure on success; a figure-less `"error"` descriptor when chart
construction raises. -/
def VisualizationAgent.processFn (plotly : String → String → String → Except String Fig)
    (columns : List String) (rows : Rows) (sql_query : Option String) : Option VizResult :=
  if rows.isEmpty then none
  else
    let chart_type := detectChartType columns rows sql_query
    if chart_type = "none" then
      some ⟨"none", none, "This data is best viewed as a table."⟩
    else
      match generateChart plotly columns rows chart_type with
      | .ok fig => some ⟨chart_type, some fig, chartRecommendation chart_type rows.length⟩
      | .error e => some ⟨"error", none, "Could not generate visualization: " ++ e⟩

/-! ## SQL agent: `process` (sql_agent.py lines 56-99) -/

/-- The prompt built by `SQLAgent._generate_sql`. -/
def sqlGenPrompt (user_query schema : String) : String :=
  "Database Schema:\n" ++ schema ++ "\n\nUser Request: " ++ user_query ++
    "\n\nGenerate a SQL query to answer this request. Return ONLY the SQL query."

/-- `SQLAgent._generate_sql`: one model call; a falsy reply (`None` or `""`)
yields `None`, otherwise the reply is cleaned. -/
def generateSql (llm : String → Option String) (user_query schema : String) :
    Option String :=
  match llm (sqlGenPrompt user_query schema) with
  | none => none
  | some response =>
    if response = "" then none else some (SQLAgent.cleanSqlResponse response)

/-- `schema or self.current_schema` followed by the `if not schema_to_use`
guard: the first truthy (non-`None`, non-empty) schema, if any. -/
def effectiveSchema (schema current_schema : Option String) : Option String :=
  if pyStrTruthy schema then schema
  else if pyStrTruthy current_schema then current_schema
  else none

/-- `sql_query.strip().upper().startswith("SELECT")`. -/
def startsWithSelectUpper (sql : String) : Bool :=
  "SELECT".data.isPrefixOf (pyUpper (pyStrip sql.data))

/-- `SQLAgent.process`: generate SQL, validate the `SELECT` prefix, execute.
Failure before validation or at validation returns `(None, None, None)`
(discarding the generated SQL); an execution fault returns the SQL with no
result set. -/
def SQLAgent.processFn (llm : String → Option String) (db : String → ExecOutcome)
    (user_query : String) (schema current_schema : Option String) :
    Option String × Option (List String) × Option Rows :=
  match effectiveSchema schema current_schema with
  | none => (none, none, none)
  | some schema_to_use =>
    match generateSql llm user_query schema_to_use with
    | none => (none, none, none)
    | some sql_query =>
      if sql_query = "" then (none, none, none)
      else if startsWithSelectUpper sql_query then
        match (run_query db sql_query).result with
        | .ok (columns, rows) => (some sql_query, some columns, some rows)
        | .error _ => (some sql_query, none, none)
      else (none, none, none)

/-! ## Orchestrator: `ChatAgent.process` (chat_agent.py lines 44-142) -/

/-- The orchestrator's response record (the dictionary built by
`ChatAgent.process`). -/
structure ChatResult where
  success : Bool
  sql_query : Option String
  columns : Option (List String)
  rows : Option Rows
  summary : Option String
  visualization : Option VizResult
  error : Option String
deriving DecidableEq, Repr

/-- The orchestrator's "could not understand" message. -/
def msgCouldNotUnderstand : String :=
  "I couldn\x27t understand your query. " ++
    "Please try rephrasing your question or ask for help with examples."

/-- The orchestrator's "generated but failed to execute" message. -/
def msgExecFailed : String :=
  "The SQL query was generated but failed to execute. " ++
    "There might be an issue with the query or database."

/-- The three sub-agents as the orchestrator sees them; each call is wrapped
in `try/except` by the orchestrator, so each may raise (`Except.error`). -/
structure AgentStages where
  sqlProcess : String → String →
    Except String (Option String × Option (List String) × Option Rows)
  summaryProcess : String → List String → Rows → String → Except String (Option String)
  vizProcess : List String → Rows → String → Except String (Option VizResult)

/-- `ChatAgent.process`: SQL stage fatal on failure; summary and
visualization stages best-effort (exceptions absorbed); a visualization is
surfaced only when the descriptor exists and its `figure` is truthy. -/
def chatProcess (ag : AgentStages) (user_query schema : String) : ChatResult :=
  match ag.sqlProcess user_query schema with
  | .error e =>
    ⟨false, none, none, none, none, none,
      some ("An error occurred while processing your query: " ++ e)⟩
  | .ok (sqlq, colsq, rowsq) =>
    match sqlq with
    | none => ⟨false, none, none, none, none, none, some msgCouldNotUnderstand⟩
    | some sql_query =>
      match colsq, rowsq with
      | some columns, some rows =>
        let summary : Option String :=
          match ag.summaryProcess sql_query columns rows user_query with
          | .ok s => s
          | .error e =>
            some ("Results retrieved successfully, but couldn\x27t generate summary: " ++ e)
        let visualization : Option VizResult :=
          match ag.vizProcess columns rows sql_query with
          | .ok (some v) => if v.figure.isSome then some v else none
          | .ok none => none
          | .error _ => none
        ⟨true, some sql_query, some columns, some rows, summary, visualization, none⟩
      | _, _ =>
        ⟨false, some sql_query, none, none, none, none, some msgExecFailed⟩

/-- The orchestrator wired to the real embedded agents (as built by
`ChatAgent.__init__` via the singleton getters); `set_schema(schema)` makes
`current_schema` equal to the passed schema, and the summary agent receives
the user query, so none of the embedded stages themselves raise. -/
def realStages (sqlLlm : String → Option String) (db : String → ExecOutcome)
    (sumLlm : String → LlmOutcome)
    (plotly : String → String → String → Except String Fig) : AgentStages where
  sqlProcess := fun user_query schema =>
    .ok (SQLAgent.processFn sqlLlm db user_query (some schema) (some schema))
  summaryProcess := fun sql_query columns rows user_query =>
    .ok (SummaryAgent.processFn sumLlm sql_query columns rows (some user_query))
  vizProcess := fun columns rows sql_query =>
    .ok (VisualizationAgent.processFn plotly columns rows (some sql_query))

end NL2SQL

namespace NL2SQL

/-! ## Helper lemmas about the string primitives -/

theorem mem_dropWhile {c : Char} {p : Char → Bool} :
    ∀ {l : List Char}, c ∈ l.dropWhile p → c ∈ l := by
  intro l h
  induction l with
  | nil => simpa using h
  | cons a t ih =>
    rw [List.dropWhile_cons] at h
    by_cases hp : p a = true
    · simp [hp] at h
      exact List.mem_cons_of_mem a (ih h)
    · simp [hp] at h
      simpa using h

theorem mem_pyStrip {c : Char} {l : List Char} (h : c ∈ pyStrip l) : c ∈ l := by
  unfold pyStrip at h
  rw [List.mem_reverse] at h
  have h2 := mem_dropWhile h
  rw [List.mem_reverse] at h2
  exact mem_dropWhile h2

theorem mem_rstripSemi {c : Char} {l : List Char} (h : c ∈ rstripSemi l) : c ∈ l := by
  unfold rstripSemi at h
  rw [List.mem_reverse] at h
  have h2 := mem_dropWhile h
  rwa [List.mem_reverse] at h2

theorem matchFenceSql_subset {l rest : List Char} (h : matchFenceSql l = some rest) :
    ∀ c ∈ rest, c ∈ l := by
  intro c hc
  unfold matchFenceSql at h
  split at h
  · injection h with heq
    subst heq
    exact (List.drop_sublist 6 l).subset (mem_dropWhile hc)
  · exact Option.noConfusion h

theorem mem_subFenceSqlAux {c : Char} :
    ∀ (fuel : Nat) (l : List Char), c ∈ subFenceSqlAux fuel l → c ∈ l := by
  intro fuel
  induction fuel with
  | zero => intro l h; simpa [subFenceSqlAux] using h
  | succ n ih =>
    intro l h
    match l with
    | [] => simpa [subFenceSqlAux] using h
    | a :: cs =>
      unfold subFenceSqlAux at h
      cases hm : matchFenceSql (a :: cs) with
      | some rest =>
        rw [hm] at h
        exact matchFenceSql_subset hm c (ih rest h)
      | none =>
        rw [hm] at h
        rcases List.mem_cons.mp h with h1 | h1
        · simp [h1]
        · exact List.mem_cons_of_mem a (ih cs h1)

theorem mem_subFenceSql {c : Char} {l : List Char} (h : c ∈ subFenceSql l) : c ∈ l :=
  mem_subFenceSqlAux l.length l h

theorem mem_subTrailingFence {c : Char} :
    ∀ {l : List Char}, c ∈ subTrailingFence l → c ∈ l := by
  intro l h
  induction l with
  | nil => simpa [subTrailingFence] using h
  | cons a t ih =>
    unfold subTrailingFence at h
    split at h
    · simp at h
    · rcases List.mem_cons.mp h with h1 | h1
      · simp [h1]
      · exact List.mem_cons_of_mem a (ih h1)

theorem mem_findSelect {c : Char} :
    ∀ {l r : List Char}, findSelect l = some r → c ∈ r → c ∈ l := by
  intro l
  induction l with
  | nil => intro r h; simp [findSelect] at h
  | cons a t ih =>
    intro r h hc
    unfold findSelect at h
    split at h
    · cases h; exact hc
    · exact List.mem_cons_of_mem a (ih h hc)

theorem mem_selectCapture {c : Char} {l : List Char} (h : c ∈ selectCapture l) : c ∈ l := by
  unfold selectCapture at h
  cases hf : findSelect l with
  | none => rw [hf] at h; exact h
  | some r => rw [hf] at h; exact mem_findSelect hf h

/-- Every character of the cleaned body comes from the raw reply: the cleaning
stages only drop characters. -/
theorem mem_cleanBody {c : Char} {l : List Char} (h : c ∈ cleanBody l) : c ∈ l := by
  unfold cleanBody at h
  exact mem_pyStrip (mem_subFenceSql (mem_subTrailingFence (mem_pyStrip
    (mem_selectCapture (mem_rstripSemi (mem_pyStrip h))))))

end NL2SQL


namespace NL2SQL

/-! ## Further helper lemmas -/

theorem checkKeywords_eq_all (l : List String) (u : List Char) :
    checkKeywords l u = l.all (fun kw => !(containsSub kw.data u)) := by
  induction l with
  | nil => rfl
  | cons kw rest ih =>
    unfold checkKeywords
    by_cases h : containsSub kw.data u
    · simp [h]
    · simp [h, ih]

theorem splitSemi_append_semi (body : List Char) (h : ';' ∉ body) :
    splitSemi (body ++ [';']) = [body, []] := by
  induction body with
  | nil => rfl
  | cons c cs ih =>
    have hc : ¬ (c = ';') := by
      intro e; exact h (by simp [e])
    have hcs : ';' ∉ cs := fun m => h (List.mem_cons_of_mem _ m)
    unfold splitSemi
    simp only [List.cons_append, hc, if_false, ih hcs]

/-- The cleaned response always has the appended terminator as last character. -/
theorem cleanSqlResponse_data (response : String) :
    (SQLAgent.cleanSqlResponse response).data = cleanBody response.data ++ [';'] := rfl

theorem cleanSqlResponse_ne_empty (response : String) :
    SQLAgent.cleanSqlResponse response ≠ "" := by
  intro h
  have : (SQLAgent.cleanSqlResponse response).data = [] := by rw [h]
  rw [cleanSqlResponse_data] at this
  exact absurd this (by simp)

/-! ## Claim C1 -/

/-- **C1, counterexample.**  The claim states that `validate_query` accepts
every string that starts with `SELECT` (after trim/uppercase) and contains no
denylisted keyword *as a whole word*.  `"SELECT updated FROM t"` contains no
denylisted whole word (`UPDATE` occurs only inside the word `UPDATED`), so the
claim demands `true`; the code checks plain substring containment and returns
`false`. -/
theorem C1_wholeword_counterexample :
    SQLAgent.validate_query "SELECT updated FROM t" = false ∧
    is_safe_claim "SELECT updated FROM t" = true :=
  ⟨by decide, by decide⟩

/-- **C1, amended.**  `validate_query` returns true exactly for strings whose
uppercased, trimmed text starts with `SELECT` and contains none of the eight
denylisted keywords as *substrings* (not whole words): the early-return
keyword loop of the code coincides with the spec-style conjunction over the
denylist. -/
theorem C1_validate_query_substring (sql : String) :
    SQLAgent.validate_query sql = is_safe_substring sql := by
  unfold SQLAgent.validate_query is_safe_substring
  by_cases h : "SELECT".data.isPrefixOf (pyStrip (pyUpper sql.data))
  · simp [h, checkKeywords_eq_all]
  · simp [h]

/-! ## Claim C3 -/

/-- **C3, counterexample.**  The claim states `_clean_sql_response` never
returns a multi-statement string.  On the raw reply `"SELECT 1; SELECT 2"`
the first-SELECT capture keeps everything to the end of the string, so the
output `"SELECT 1; SELECT 2;"` contains two `';'`-separated statements. -/
theorem C3_multistatement_counterexample :
    sqlStatementCount (SQLAgent.cleanSqlResponse "SELECT 1; SELECT 2") = 2 := by decide

/-- **C3, amended.**  The reduction only removes characters before appending
the final terminator, so when the raw reply contains no semicolon at all the
output contains at most one statement; replies that already contain a
semicolon-separated second statement keep it. -/
theorem C3_single_statement_of_no_semi (response : String) (h : ';' ∉ response.data) :
    sqlStatementCount (SQLAgent.cleanSqlResponse response) ≤ 1 := by
  have hbody : ';' ∉ cleanBody response.data := fun m => h (mem_cleanBody m)
  unfold sqlStatementCount
  rw [cleanSqlResponse_data, splitSemi_append_semi _ hbody]
  by_cases hb : (cleanBody response.data).any (fun c => !(pyIsSpace c))
  · simp [List.filter, hb]
  · simp [List.filter, hb]

/-- **C3, witness** for the amended theorem at the semicolon-free reply
`"SELECT 1"`. -/
theorem C3_single_statement_witness :
    sqlStatementCount (SQLAgent.cleanSqlResponse "SELECT 1") ≤ 1 :=
  C3_single_statement_of_no_semi "SELECT 1" (by decide)

/-! ## Claim C6 -/

/-- **C6.**  The reduction recovers a query embedded in prose and fences:
`"Sure! ```sql\nSELECT * FROM t\n``` "` reduces to exactly
`"SELECT * FROM t;"`. -/
theorem C6_recovers_embedded_sql :
    SQLAgent.cleanSqlResponse "Sure! ```sql\nSELECT * FROM t\n``` " = "SELECT * FROM t;" := by
  decide

/-! ## Claim C7 -/

/-- **C7, counterexample.**  The claim states every output ends with exactly
one semicolon.  On input `"SELECT 1; ;"` the `rstrip(';')` removes only the
final run of semicolons, the following `strip()` then exposes the inner
semicolon, and the appended terminator yields `"SELECT 1;;"`, which ends with
two semicolons. -/
theorem C7_two_semicolons_counterexample :
    SQLAgent.cleanSqlResponse "SELECT 1; ;" = "SELECT 1;;" ∧
    endsWithOneSemi (SQLAgent.cleanSqlResponse "SELECT 1; ;") = false :=
  ⟨by decide, by decide⟩

/-- **C7, amended.**  The reduction is idempotent on the already-clean input
`"SELECT 1;"`, and every output ends with a semicolon (the appended canonical
terminator) — though not always with exactly one. -/
theorem C7_idempotent_and_terminator :
    SQLAgent.cleanSqlResponse "SELECT 1;" = "SELECT 1;" ∧
    ∀ response : String,
      (SQLAgent.cleanSqlResponse response).data.reverse.head? = some ';' := by
  refine ⟨by decide, fun response => ?_⟩
  rw [cleanSqlResponse_data]
  simp

end NL2SQL

namespace NL2SQL

/-! ## Helper lemmas for chart detection -/

/-- Every branch of the detection cascade returns one of the five tags. -/
theorem detectChartType_mem (columns : List String) (rows : Rows) (sql : Option String) :
    detectChartType columns rows sql ∈ (["bar", "pie", "line", "scatter", "none"] : List String) := by
  unfold detectChartType
  dsimp only
  repeat' split
  all_goals decide

theorem detectChartType_ne_error (columns : List String) (rows : Rows) (sql : Option String) :
    detectChartType columns rows sql ≠ "error" := by
  intro e
  have h := detectChartType_mem columns rows sql
  rw [e] at h
  simp at h

/-! ## Claim C4 -/

/-- **C8.**  The Result Interpreter short-circuits an empty result set to the
fixed "no results" message for *every* model oracle (so the model's behaviour
is irrelevant: it is not consulted), and on a non-empty result set whose
model call fails (`None` reply) or raises, it returns the deterministic
fallback summary, a function of the row count alone (the unused `sql_query`
argument does not influence it). -/
theorem C8_summary_fallback :
    (∀ (llm : String → LlmOutcome) (sql_query : String) (columns : List String)
       (user_query : Option String),
       SummaryAgent.processFn llm sql_query columns [] user_query = some msgNoResults) ∧
    (∀ (llm : String → LlmOutcome) (sql_query : String) (columns : List String)
       (rows : Rows) (user_query : Option String),
       rows ≠ [] →
       (llm (summaryPrompt sql_query (formatResults columns rows) user_query) = .fail ∨
        llm (summaryPrompt sql_query (formatResults columns rows) user_query) = .exc) →
       SummaryAgent.processFn llm sql_query columns rows user_query
         = some (fallbackSummary sql_query rows.length)) ∧
    (∀ (s₁ s₂ : String) (n : Nat), fallbackSummary s₁ n = fallbackSummary s₂ n) := by
  refine ⟨fun llm sql columns uq => rfl, ?_, fun s₁ s₂ n => rfl⟩
  intro llm sql columns rows uq hne hllm
  have he : rows.isEmpty = false := by
    cases rows with
    | nil => exact absurd rfl hne
    | cons r rs => rfl
  unfold SummaryAgent.processFn
  rw [he]
  rcases hllm with h | h <;> simp [generateSummary, h]

/-- **C8, witness**: a one-row result with a failing model oracle yields the
row-count fallback. -/
theorem C8_witness :
    SummaryAgent.processFn (fun _ => LlmOutcome.fail) "SELECT 1;" ["c"] [[Val.vInt 5]] none
      = some (fallbackSummary "SELECT 1;" 1) :=
  C8_summary_fallback.2.1 (fun _ => LlmOutcome.fail) "SELECT 1;" ["c"] [[Val.vInt 5]] none
    (by decide) (Or.inl rfl)

/-! ## Claim C9 -/

/-- **C9.**  `run_query` on a query whose trimmed text begins with `select`
(case-insensitively) returns the cursor's column names (empty when the
cursor has no description) paired with all fetched rows, closing without
committing; on any other query it executes, commits, closes and returns the
empty result `([], [])`; and an execution fault is re-raised to the caller
with the connection closed. -/
theorem C9_run_query_behaviour (db : String → ExecOutcome) (sql : String) :
    (∀ msg, db sql = .raises msg →
       run_query db sql = ⟨.error msg, false, true⟩) ∧
    (∀ descr rows, db sql = .done descr rows → startsWithSelectLower sql = true →
       run_query db sql = ⟨.ok (descr.getD [], rows), false, true⟩) ∧
    (∀ descr rows, db sql = .done descr rows → startsWithSelectLower sql = false →
       run_query db sql = ⟨.ok ([], []), true, true⟩) := by
  refine ⟨fun msg h => ?_, fun descr rows h hsel => ?_, fun descr rows h hsel => ?_⟩ <;>
    unfold run_query <;> rw [h]
  · simp [hsel]
  · simp [hsel]

/-- **C9, witness**: a select with a one-column description and one fetched
row is returned as-is, uncommitted, with the connection closed. -/
theorem C9_witness :
    run_query (fun _ => ExecOutcome.done (some ["a"]) [[Val.vInt 1]]) " SELECT 1"
      = ⟨.ok (["a"], [[Val.vInt 1]]), false, true⟩ :=
  (C9_run_query_behaviour (fun _ => ExecOutcome.done (some ["a"]) [[Val.vInt 1]]) " SELECT 1").2.1
    (some ["a"]) [[Val.vInt 1]] rfl (by decide)

end NL2SQL

namespace NL2SQL

/-! ## Helper lemmas for the orchestrator claims -/

theorem generateSql_ne_empty {llm : String → Option String} {uq sch sql : String}
    (h : generateSql llm uq sch = some sql) : sql ≠ "" := by
  unfold generateSql at h
  cases hr : llm (sqlGenPrompt uq sch) with
  | none => rw [hr] at h; exact Option.noConfusion h
  | some r =>
    rw [hr] at h
    dsimp only at h
    by_cases he : r = ""
    · rw [if_pos he] at h; exact Option.noConfusion h
    · rw [if_neg he] at h
      injection h with h
      rw [← h]
      exact cleanSqlResponse_ne_empty r

/-- A descriptor returned by the visualization agent with a present figure is
tagged with the detected chart type, hence neither `"none"` nor `"error"`. -/
theorem vizProcessFn_figure_inv {plotly : String → String → String → Except String Fig}
    {columns : List String} {rows : Rows} {sql_query : Option String} {v : VizResult}
    (h : VisualizationAgent.processFn plotly columns rows sql_query = some v)
    (hfig : v.figure.isSome = true) :
    v.chart_type ≠ "none" ∧ v.chart_type ≠ "error" := by
  unfold VisualizationAgent.processFn at h
  by_cases hemp : rows.isEmpty = true
  · simp [hemp] at h
  · simp only [hemp, Bool.false_eq_true, if_false] at h
    by_cases hct : detectChartType columns rows sql_query = "none"
    · rw [if_pos hct] at h
      injection h with h
      rw [← h] at hfig
      simp at hfig
    · rw [if_neg hct] at h
      cases hg : generateChart plotly columns rows (detectChartType columns rows sql_query) with
      | ok fig =>
        rw [hg] at h
        injection h with h
        rw [← h]
        exact ⟨hct, detectChartType_ne_error columns rows sql_query⟩
      | error e =>
        rw [hg] at h
        injection h with h
        rw [← h] at hfig
        simp at hfig

/-! ## Claim C5 -/

/-- **C5.**  Once the SQL stage has produced a query with columns and rows,
an exception raised by the Result Interpreter still yields `success = true`
with the result set unchanged and a non-null fallback summary carrying the
exception text, and an exception raised by the Chart Selector still yields
`success = true` with the result set unchanged and no visualization. -/
theorem C5_summary_viz_failure_isolation (ag : AgentStages) (user_query schema : String)
    (sql_query : String) (columns : List String) (rows : Rows)
    (hsql : ag.sqlProcess user_query schema = .ok (some sql_query, some columns, some rows)) :
    (∀ e, ag.summaryProcess sql_query columns rows user_query = .error e →
       (chatProcess ag user_query schema).success = true ∧
       (chatProcess ag user_query schema).columns = some columns ∧
       (chatProcess ag user_query schema).rows = some rows ∧
       (chatProcess ag user_query schema).summary
         = some ("Results retrieved successfully, but couldn\x27t generate summary: " ++ e)) ∧
    (∀ e, ag.vizProcess columns rows sql_query = .error e →
       (chatProcess ag user_query schema).success = true ∧
       (chatProcess ag user_query schema).columns = some columns ∧
       (chatProcess ag user_query schema).rows = some rows ∧
       (chatProcess ag user_query schema).visualization = none) := by
  constructor
  · intro e he
    unfold chatProcess
    rw [hsql]
    simp [he]
  · intro e he
    unfold chatProcess
    rw [hsql]
    simp [he]

/-- **C5, witness**: stages whose summary and visualization both raise still
produce a successful response with the SQL stage's rows, a fallback summary
carrying the exception text, and no visualization. -/
theorem C5_witness :
    (chatProcess
        ⟨fun _ _ => .ok (some "SELECT 1;", some ["c"], some [[Val.vInt 1]]),
         fun _ _ _ _ => .error "summary boom", fun _ _ _ => .error "viz boom"⟩
        "q" "s").success = true ∧
    (chatProcess
        ⟨fun _ _ => .ok (some "SELECT 1;", some ["c"], some [[Val.vInt 1]]),
         fun _ _ _ _ => .error "summary boom", fun _ _ _ => .error "viz boom"⟩
        "q" "s").rows = some [[Val.vInt 1]] ∧
    (chatProcess
        ⟨fun _ _ => .ok (some "SELECT 1;", some ["c"], some [[Val.vInt 1]]),
         fun _ _ _ _ => .error "summary boom", fun _ _ _ => .error "viz boom"⟩
        "q" "s").summary
      = some ("Results retrieved successfully, but couldn\x27t generate summary: summary boom") ∧
    (chatProcess
        ⟨fun _ _ => .ok (some "SELECT 1;", some ["c"], some [[Val.vInt 1]]),
         fun _ _ _ _ => .error "summary boom", fun _ _ _ => .error "viz boom"⟩
        "q" "s").visualization = none := by
  have h := C5_summary_viz_failure_isolation
    ⟨fun _ _ => .ok (some "SELECT 1;", some ["c"], some [[Val.vInt 1]]),
     fun _ _ _ _ => .error "summary boom", fun _ _ _ => .error "viz boom"⟩
    "q" "s" "SELECT 1;" ["c"] [[Val.vInt 1]] rfl
  exact ⟨(h.1 "summary boom" rfl).1, (h.1 "summary boom" rfl).2.2.1,
         (h.1 "summary boom" rfl).2.2.2, (h.2 "viz boom" rfl).2.2.2⟩

/-! ## Claim C2 -/

/-- **C2, counterexample.**  The claim states that when a SQL string is
synthesized but rejected by validation, the response's generated-SQL field
contains the rejected query.  With a model oracle replying
`"DROP TABLE x"`, the synthesizer produces the query `"DROP TABLE x;"`,
validation rejects it (no `SELECT` prefix) — yet the orchestrator's response
has `success = false` with `sql_query = none`: the rejected SQL is discarded
inside the SQL agent, not surfaced. -/
theorem C2_rejected_sql_not_surfaced :
    SQLAgent.cleanSqlResponse "DROP TABLE x" = "DROP TABLE x;" ∧
    startsWithSelectUpper "DROP TABLE x;" = false ∧
    (chatProcess
        (realStages (fun _ => some "DROP TABLE x") (fun _ => ExecOutcome.done none [])
          (fun _ => LlmOutcome.fail) (fun _ _ _ => Except.ok ()))
        "remove the table" "schema").success = false ∧
    (chatProcess
        (realStages (fun _ => some "DROP TABLE x") (fun _ => ExecOutcome.done none [])
          (fun _ => LlmOutcome.fail) (fun _ _ _ => Except.ok ()))
        "remove the table" "schema").sql_query = none :=
  ⟨by decide, by decide, by decide, by decide⟩

/-- **C2, amended.**  When a SQL string is synthesized but fails the
validation stage (`SELECT`-prefix check), the orchestrator returns
`success = false` with the "could not understand" error and a *null*
generated-SQL field: the rejected query is not surfaced to the caller. -/
theorem C2_validation_failure_response (sqlLlm : String → Option String)
    (db : String → ExecOutcome) (sumLlm : String → LlmOutcome)
    (plotly : String → String → String → Except String Fig)
    (user_query schema sql_query : String)
    (hschema : schema ≠ "")
    (hgen : generateSql sqlLlm user_query schema = some sql_query)
    (hval : startsWithSelectUpper sql_query = false) :
    (chatProcess (realStages sqlLlm db sumLlm plotly) user_query schema).success = false ∧
    (chatProcess (realStages sqlLlm db sumLlm plotly) user_query schema).sql_query = none ∧
    (chatProcess (realStages sqlLlm db sumLlm plotly) user_query schema).error
      = some msgCouldNotUnderstand := by
  have hne : sql_query ≠ "" := generateSql_ne_empty hgen
  have heff : effectiveSchema (some schema) (some schema) = some schema := by
    simp [effectiveSchema, pyStrTruthy, hschema]
  have hproc : SQLAgent.processFn sqlLlm db user_query (some schema) (some schema)
      = (none, none, none) := by
    unfold SQLAgent.processFn
    rw [heff]
    dsimp only
    rw [hgen]
    dsimp only
    simp [hne, hval]
  unfold chatProcess realStages
  dsimp only
  rw [hproc]
  exact ⟨rfl, rfl, rfl⟩

/-- **C2, witness** for the amended theorem: a reply `"DROP TABLE y"` is
synthesized into `"DROP TABLE y;"`, rejected, and the response carries no
SQL. -/
theorem C2_witness :
    (chatProcess
        (realStages (fun _ => some "DROP TABLE y") (fun _ => ExecOutcome.done none [])
          (fun _ => LlmOutcome.fail) (fun _ _ _ => Except.ok ()))
        "drop it" "s").success = false ∧
    (chatProcess
        (realStages (fun _ => some "DROP TABLE y") (fun _ => ExecOutcome.done none [])
          (fun _ => LlmOutcome.fail) (fun _ _ _ => Except.ok ()))
        "drop it" "s").sql_query = none ∧
    (chatProcess
        (realStages (fun _ => some "DROP TABLE y") (fun _ => ExecOutcome.done none [])
          (fun _ => LlmOutcome.fail) (fun _ _ _ => Except.ok ()))
        "drop it" "s").error = some msgCouldNotUnderstand :=
  C2_validation_failure_response (fun _ => some "DROP TABLE y")
    (fun _ => ExecOutcome.done none []) (fun _ => LlmOutcome.fail) (fun _ _ _ => Except.ok ())
    "drop it" "s" "DROP TABLE y;" (by decide) (by decide) (by decide)

/-! ## Claim C10 -/

/-- **C10.**  The orchestrator surfaces a visualization only when the
descriptor holds an actually constructed figure — descriptors tagged
`"none"` or `"error"` (whose figure is absent) are never surfaced — and on an
empty result set the visualization agent returns no descriptor at all. -/
theorem C10_visualization_only_with_figure (sqlLlm : String → Option String)
    (db : String → ExecOutcome) (sumLlm : String → LlmOutcome)
    (plotly : String → String → String → Except String Fig)
    (user_query schema : String) :
    (∀ v, (chatProcess (realStages sqlLlm db sumLlm plotly) user_query schema).visualization
        = some v →
       v.figure.isSome = true ∧ v.chart_type ≠ "none" ∧ v.chart_type ≠ "error") ∧
    (∀ (columns : List String) (sql_query : Option String),
       VisualizationAgent.processFn plotly columns [] sql_query = none) := by
  constructor
  · intro v hv
    unfold chatProcess realStages at hv
    dsimp only at hv
    rcases hproc : SQLAgent.processFn sqlLlm db user_query (some schema) (some schema)
      with ⟨sqlq, colsq, rowsq⟩
    rw [hproc] at hv
    cases sqlq with
    | none => simp at hv
    | some sql =>
      cases colsq with
      | none => cases rowsq <;> simp at hv
      | some cols =>
        cases rowsq with
        | none => simp at hv
        | some rows =>
          dsimp only at hv
          cases hviz : VisualizationAgent.processFn plotly cols rows (some sql) with
          | none => rw [hviz] at hv; simp at hv
          | some v' =>
            rw [hviz] at hv
            dsimp only at hv
            by_cases hfig : v'.figure.isSome = true
            · rw [if_pos hfig] at hv
              injection hv with hv
              subst hv
              exact ⟨hfig, vizProcessFn_figure_inv hviz hfig⟩
            · simp [hfig] at hv
  · intro columns sql_query
    rfl

/-- **C10, witness**: a full pipeline run that surfaces a pie chart; the
surfaced descriptor has a present figure and is neither `"none"` nor
`"error"`. -/
theorem C10_witness :
    (chatProcess
        (realStages (fun _ => some "SELECT dept, cnt FROM t")
          (fun _ => ExecOutcome.done (some ["dept", "cnt"])
            [[Val.vText "A", Val.vInt 3], [Val.vText "B", Val.vInt 4], [Val.vText "C", Val.vInt 5]])
          (fun _ => LlmOutcome.fail) (fun _ _ _ => Except.ok ()))
        "counts by dept" "schema").visualization
      = some ⟨"pie", some (), "Pie chart showing distribution of 3 segments."⟩ ∧
    (⟨"pie", some (), "Pie chart showing distribution of 3 segments."⟩ : VizResult).figure.isSome
      = true ∧
    (⟨"pie", some (), "Pie chart showing distribution of 3 segments."⟩ : VizResult).chart_type
      ≠ "none" ∧
    (⟨"pie", some (), "Pie chart showing distribution of 3 segments."⟩ : VizResult).chart_type
      ≠ "error" := by
  refine ⟨by decide, ?_⟩
  have h := (C10_visualization_only_with_figure (fun _ => some "SELECT dept, cnt FROM t")
    (fun _ => ExecOutcome.done (some ["dept", "cnt"])
      [[Val.vText "A", Val.vInt 3], [Val.vText "B", Val.vInt 4], [Val.vText "C", Val.vInt 5]])
    (fun _ => LlmOutcome.fail) (fun _ _ _ => Except.ok ()) "counts by dept" "schema").1
    ⟨"pie", some (), "Pie chart showing distribution of 3 segments."⟩ (by decide)
  exact ⟨h.1, h.2.1, h.2.2⟩

end NL2SQL
